import Mathlib

/-!
Shallow embedding of the axochat-client protocol session layer
(src/client.ts, src/structures.ts).
-/

namespace Axochat

/-- JSON values as exchanged on the wire (arrays are never used by this
protocol's payloads, so they are omitted from the model). -/
inductive Json where
  | null
  | bool (b : Bool)
  | num (n : Int)
  | str (s : String)
  | obj (fields : List (String × Json))

/-- Faults of the message-handling and send paths: a JSON parse failure
(the spec's MalformedEnvelope), a JS TypeError from property access on
null/undefined, and the failure of sending with no bound transport handle
(the spec's NotConnected; concretely a TypeError on the undefined handle). -/
inductive Fault where
  | malformedEnvelope
  | typeError
  | notConnected
deriving DecidableEq

/-- Plain JSON object field lookup. Non-objects have no fields. -/
def Json.get : Json → String → Option Json
  | .obj fs, k => (fs.find? (fun p => p.fst == k)).map Prod.snd
  | _, _ => none

/-- JS property access `v.k`: throws TypeError on null/undefined,
yields undefined (`none`) on other primitives, field lookup on objects. -/
def jsGet : Option Json → String → Except Fault (Option Json)
  | none, _ => .error .typeError
  | some .null, _ => .error .typeError
  | some (.obj fs), k => .ok ((fs.find? (fun p => p.fst == k)).map Prod.snd)
  | some _, _ => .ok none

/-- Events the client emits to its subscribers.  `rawPacket` carries the raw
frame (represented by its parse result, `none` when the text is not valid
JSON); `packet` carries the decoded envelope; the remaining constructors are
the typed events, whose payload fields hold the (possibly undefined) JS
values the source passes to `emit`.  `close` is the session-level close
event named by the spec; the source never emits it. -/
inductive Event where
  | rawPacket (frame : Option Json)
  | packet (p : Json)
  | error (c : Option Json)
  | message (author content : Option Json)
  | mojangInfo (sessionHash : Option Json)
  | newJWT (c : Option Json)
  | privateMessage (author content : Option Json)
  | success (c : Option Json)
  | userCount (connections loggedIn : Option Json)
  | close

/-- Typed events are every emission other than the observability hooks
`rawPacket` and `packet` and the lifecycle event `close`. -/
def Event.isTyped : Event → Bool
  | .rawPacket _ => false
  | .packet _ => false
  | .close => false
  | _ => true

/-- The codec-level decode step of the receive path (client.ts line 54):
`JSON.parse(data) as Packet`.  The input is the platform parse result of the
frame text (`none` when the text is not valid JSON, in which case
`JSON.parse` throws).  The `as Packet` cast performs no runtime check, so a
successful parse passes through unchanged. -/
def decode (parseResult : Option Json) : Except Fault Json :=
  match parseResult with
  | none => .error .malformedEnvelope
  | some v => .ok v

/-- The external WebSocket transport handle, observed through the frames the
session handed to its `send` operation and whether its `close` was
requested. -/
structure WebSocketHandle where
  sent : List Json
  closeRequested : Bool

/-- The session state: the one transport handle the client owns, or none
(the `webSocket` field of `Client`, undefined until `connect`). -/
structure ClientState where
  webSocket : Option WebSocketHandle

/-- The serialization `JSON.stringify({m: packetName, c: data})` performed by
`sendPacket` (client.ts lines 238-243), represented by the JSON value of the
produced text; `JSON.stringify` drops the `c` key when `data` is
undefined. -/
def stringifyPacket (packetName : String) (data : Option Json) : Json :=
  match data with
  | none => .obj [("m", .str packetName)]
  | some d => .obj [("m", .str packetName), ("c", d)]

namespace Client

/-- The constructor (client.ts lines 36-38): no transport handle is bound. -/
def initState : ClientState := ⟨none⟩

/-- connect (client.ts lines 40-45): creates a fresh transport handle bound
to the url and stores it, replacing whatever handle was stored before. -/
def connect (webSocketUrl : String) (st : ClientState) : ClientState :=
  ⟨some { sent := [], closeRequested := false }⟩

/-- The switch on `packet.m` of `handleMessage` (client.ts lines 58-87),
given the decoded envelope `p` and the string value `m` of `packet.m`.
Property reads into `packet.c` follow the source exactly, including the
TypeError a case would raise when `packet.c` is absent or null. -/
def typedDispatch (p : Json) (m : String) : Except Fault (List Event) :=
  if m = "Error" then do
    let c ← jsGet (some p) "c"
    pure [.error c]
  else if m = "Message" then do
    let c ← jsGet (some p) "c"
    let a ← jsGet c "author_info"
    let co ← jsGet c "content"
    pure [.message a co]
  else if m = "MojangInfo" then do
    let c ← jsGet (some p) "c"
    let sh ← jsGet c "session_hash"
    pure [.mojangInfo sh]
  else if m = "NewJWT" then do
    let c ← jsGet (some p) "c"
    pure [.newJWT c]
  else if m = "PrivateMessage" then do
    let c ← jsGet (some p) "c"
    let a ← jsGet c "author_info"
    let co ← jsGet c "content"
    pure [.privateMessage a co]
  else if m = "Success" then do
    let c ← jsGet (some p) "c"
    pure [.success c]
  else if m = "UserCount" then do
    let c ← jsGet (some p) "c"
    let conn ← jsGet c "connections"
    let li ← jsGet c "logged_in"
    pure [.userCount conn li]
  else pure []

/-- The receive path (client.ts lines 51-88): emit `rawPacket`, parse,
emit `packet`, then dispatch on `packet.m`.  Returns the events emitted and
the fault, if any, at which processing aborted (a parse failure or a
TypeError from a payload read); events already emitted stay emitted. -/
def handleMessage (frame : Option Json) : List Event × Option Fault :=
  match frame with
  | none => ([.rawPacket none], some .malformedEnvelope)
  | some p =>
    let pre : List Event := [.rawPacket (some p), .packet p]
    match jsGet (some p) "m" with
    | .error e => (pre, some e)
    | .ok mv =>
      match mv with
      | some (.str m) =>
        match typedDispatch p m with
        | .error e => (pre, some e)
        | .ok evs => (pre ++ evs, none)
      | _ => (pre, none)

/-- sendPacket (client.ts lines 237-244): `this.webSocket.send(...)` on an
unbound (undefined) handle fails before any byte reaches a transport;
otherwise the serialized frame is handed to the transport's send. -/
def sendPacket (packetName : String) (data : Option Json) (st : ClientState) :
    Except Fault ClientState :=
  match st.webSocket with
  | none => .error .notConnected
  | some ws => .ok ⟨some { ws with sent := ws.sent ++ [stringifyPacket packetName data] }⟩

/-- The default of the `allowMessages` parameter of loginJWT
(client.ts line 95). -/
def loginJWTDefaultAllowMessages : Bool := false

/-- loginJWT (client.ts lines 95-97). -/
def loginJWT (token : String) (allowMessages : Bool) : ClientState → Except Fault ClientState :=
  sendPacket "LoginJWT" (some (.obj [("token", .str token), ("allow_messages", .bool allowMessages)]))

/-- loginMojang (client.ts lines 107-109). -/
def loginMojang (name uuid : String) (allowMessages : Bool) :
    ClientState → Except Fault ClientState :=
  sendPacket "LoginMojang"
    (some (.obj [("name", .str name), ("uuid", .str uuid), ("allow_messages", .bool allowMessages)]))

/-- requestMojangInfo (client.ts lines 120-122). -/
def requestMojangInfo : ClientState → Except Fault ClientState :=
  sendPacket "RequestMojangInfo" none

/-- sendMessage (client.ts lines 179-181). -/
def sendMessage (content : String) : ClientState → Except Fault ClientState :=
  sendPacket "Message" (some (.obj [("content", .str content)]))

/-- sendPrivateMessage (client.ts lines 188-190). -/
def sendPrivateMessage (receiver message : String) : ClientState → Except Fault ClientState :=
  sendPacket "PrivateMessage" (some (.obj [("message", .str message), ("receiver", .str receiver)]))

/-- requestJWT (client.ts lines 197-199). -/
def requestJWT : ClientState → Except Fault ClientState :=
  sendPacket "RequestJWT" none

/-- requestUserCount (client.ts lines 206-208). -/
def requestUserCount : ClientState → Except Fault ClientState :=
  sendPacket "RequestUserCount" none

/-- banUser (client.ts lines 216-218): the source sends the wire kind
UnbanUser with payload field `uuid`. -/
def banUser (uuid : String) : ClientState → Except Fault ClientState :=
  sendPacket "UnbanUser" (some (.obj [("uuid", .str uuid)]))

/-- unbanUser (client.ts lines 226-228). -/
def unbanUser (uuid : String) : ClientState → Except Fault ClientState :=
  sendPacket "UnbanUser" (some (.obj [("uuid", .str uuid)]))

/-- Modelled from the spec: the source `Client` class has no `disconnect`
member, so this operation is taken from spec section 4.2: if a handle is
bound, request transport close and clear the handle, transitioning to
Disconnected at the session level; a no-op when already Disconnected, and
the session's own bookkeeping emits no close event.  Returns the new state,
the events emitted, and the released handle (with its close requested),
when there was one. -/
def disconnect (st : ClientState) : ClientState × List Event × Option WebSocketHandle :=
  match st.webSocket with
  | none => (st, [], none)
  | some ws => (⟨none⟩, [], some { ws with closeRequested := true })

end Client

/-- Close events, for counting the session's own close emissions. -/
def Event.isClose : Event → Bool
  | .close => true
  | _ => false

/-- The six inbound kinds the spec lists as recognized. -/
def specRecognizedInboundKinds : List String :=
  ["Error", "Message", "PrivateMessage", "NewJWT", "Success", "UserCount"]

/-- The inbound kinds the source's switch actually dispatches as typed
events (client.ts lines 58-87): the spec's six plus MojangInfo. -/
def recognizedInboundKinds : List String :=
  ["Error", "Message", "MojangInfo", "NewJWT", "PrivateMessage", "Success", "UserCount"]

/-- A payload object holding every field any recognized case reads, so each
recognized kind can be exercised on one well-formed frame. -/
def sampleInboundPayload : Json :=
  Json.obj [("author_info", Json.str "a"), ("content", Json.str "x"),
            ("session_hash", Json.str "s"), ("token", Json.str "t"),
            ("connections", Json.num 1), ("logged_in", Json.num 1)]

/-- A concrete inbound MojangInfo frame. -/
def mojangInfoFrame : Json :=
  Json.obj [("m", Json.str "MojangInfo"), ("c", Json.obj [("session_hash", Json.str "h")])]

/-- C1: evaluating banUser at the failing input.  On a session with a bound
transport, banUser "abc-123" hands the transport exactly one frame, and that
frame's wire kind is UnbanUser with payload field uuid - not the claimed
BanUser kind with payload field user (the source of the claim documents
banUser as banning, but line 217 sends the UnbanUser packet). -/
theorem banUser_concrete_sends_UnbanUser_uuid :
    Client.banUser "abc-123" ⟨some ⟨[], false⟩⟩ =
      .ok ⟨some ⟨[Json.obj [("m", Json.str "UnbanUser"),
                           ("c", Json.obj [("uuid", Json.str "abc-123")])]], false⟩⟩ := rfl

/-- C2 counterexample: unbanUser "abc-123" on a fresh bound session does not
hand the transport the frame with payload field user holding the uuid that
the claim states; the payload field is named uuid. -/
theorem unbanUser_concrete_payload_lacks_user_field :
    Client.unbanUser "abc-123" ⟨some ⟨[], false⟩⟩ ≠
      .ok ⟨some ⟨[Json.obj [("m", Json.str "UnbanUser"),
                           ("c", Json.obj [("user", Json.str "abc-123")])]], false⟩⟩ := by
  simp [Client.unbanUser, Client.sendPacket, stringifyPacket]

/-- C2 amended: for every uuid u, unbanUser u on a session with a bound
transport hands the transport exactly one frame, of wire kind UnbanUser with
payload field uuid holding u. -/
theorem unbanUser_sends_UnbanUser_with_uuid_field (u : String) (ws : WebSocketHandle) :
    Client.unbanUser u ⟨some ws⟩ =
      .ok ⟨some ⟨ws.sent ++ [Json.obj [("m", Json.str "UnbanUser"),
                                       ("c", Json.obj [("uuid", Json.str u)])]],
                ws.closeRequested⟩⟩ := rfl

/-- C3: banUser and unbanUser are extensionally equal - both send the
UnbanUser kind with payload field uuid, byte for byte the same frame. -/
theorem banUser_extensionally_equals_unbanUser :
    Client.banUser = Client.unbanUser ∧
    ∀ (u : String) (ws : WebSocketHandle),
      Client.banUser u ⟨some ws⟩ =
        .ok ⟨some ⟨ws.sent ++ [Json.obj [("m", Json.str "UnbanUser"),
                                         ("c", Json.obj [("uuid", Json.str u)])]],
                  ws.closeRequested⟩⟩ :=
  ⟨rfl, fun _ _ => rfl⟩

/-- C4: with no bound transport handle (the constructor state, before any
connect), sendPacket and every send-like operation fail with the
NotConnected condition (concretely, the send on the undefined handle
throws), and no successor state exists in which any frame was handed to a
transport. -/
theorem send_ops_fail_notConnected_when_unbound (k tok content receiver msg u : String)
    (d : Option Json) (am : Bool) :
    Client.sendPacket k d Client.initState = .error .notConnected ∧
    Client.loginJWT tok am Client.initState = .error .notConnected ∧
    Client.sendMessage content Client.initState = .error .notConnected ∧
    Client.sendPrivateMessage receiver msg Client.initState = .error .notConnected ∧
    Client.requestJWT Client.initState = .error .notConnected ∧
    Client.requestUserCount Client.initState = .error .notConnected ∧
    Client.banUser u Client.initState = .error .notConnected ∧
    Client.unbanUser u Client.initState = .error .notConnected ∧
    (∀ st', Client.sendPacket k d Client.initState ≠ .ok st') :=
  ⟨rfl, rfl, rfl, rfl, rfl, rfl, rfl, rfl, fun _ h => nomatch h⟩

/-- C4 witness: the theorem applied at concrete arguments. -/
theorem send_ops_fail_notConnected_when_unbound_witness :
    Client.sendPacket "Message" none Client.initState = .error .notConnected :=
  (send_ops_fail_notConnected_when_unbound "Message" "t" "c" "r" "m" "u" none false).1

/-- C5 counterexample: MojangInfo is outside the claimed six-kind set, yet a
MojangInfo frame triggers a typed event (mojangInfo), so the set of inbound
kinds with typed dispatch is not exactly the claimed six. -/
theorem mojangInfo_triggers_typed_event :
    "MojangInfo" ∉ specRecognizedInboundKinds
    ∧ ((Client.handleMessage (some mojangInfoFrame)).1.filter Event.isTyped).length = 1
    ∧ (Client.handleMessage (some mojangInfoFrame)).1 =
        [.rawPacket (some mojangInfoFrame), .packet mojangInfoFrame,
         .mojangInfo (some (Json.str "h"))] :=
  ⟨by decide, rfl, rfl⟩

/-- C5 amended: the set of inbound kinds dispatched as typed events is
exactly the seven of recognizedInboundKinds (the claimed six plus
MojangInfo): a frame whose m is any string outside that set triggers only
rawPacket and the generic packet event and no fault, while each kind in the
set, on a well-formed payload, triggers exactly one typed event. -/
theorem typed_event_kinds_exactly_seven (s : String) (c : Json)
    (h : s ∉ recognizedInboundKinds) :
    Client.handleMessage (some (Json.obj [("m", Json.str s), ("c", c)])) =
      ([.rawPacket (some (Json.obj [("m", Json.str s), ("c", c)])),
        .packet (Json.obj [("m", Json.str s), ("c", c)])], none)
    ∧ ∀ k ∈ recognizedInboundKinds,
        ((Client.handleMessage
            (some (Json.obj [("m", Json.str k), ("c", sampleInboundPayload)]))).1.filter
          Event.isTyped).length = 1 := by
  simp [recognizedInboundKinds] at h
  obtain ⟨h1, h2, h3, h4, h5, h6, h7⟩ := h
  constructor
  · simp [Client.handleMessage, Client.typedDispatch, jsGet, pure, Except.pure,
      h1, h2, h3, h4, h5, h6, h7]
  · decide

/-- C5 witness: the amended theorem applied at the unrecognized kind
FutureThing with a null payload. -/
theorem typed_event_kinds_exactly_seven_witness :
    Client.handleMessage (some (Json.obj [("m", Json.str "FutureThing"), ("c", Json.null)])) =
      ([.rawPacket (some (Json.obj [("m", Json.str "FutureThing"), ("c", Json.null)])),
        .packet (Json.obj [("m", Json.str "FutureThing"), ("c", Json.null)])], none) :=
  (typed_event_kinds_exactly_seven "FutureThing" Json.null (by decide)).1

/-- C6: each remaining outbound operation, on a session with a bound
transport, hands the transport exactly one frame with its documented wire
kind and payload: LoginJWT with token and allow_messages (the allowMessages
parameter defaulting to false), Message with content, PrivateMessage with
message and receiver, and RequestJWT and RequestUserCount with no payload
(no c key on the wire). -/
theorem outbound_ops_wire_format (tok content receiver msg : String) (am : Bool)
    (ws : WebSocketHandle) :
    Client.loginJWT tok am ⟨some ws⟩ =
      .ok ⟨some ⟨ws.sent ++ [Json.obj [("m", Json.str "LoginJWT"),
                                       ("c", Json.obj [("token", Json.str tok),
                                                       ("allow_messages", Json.bool am)])]],
                ws.closeRequested⟩⟩
    ∧ Client.loginJWTDefaultAllowMessages = false
    ∧ Client.sendMessage content ⟨some ws⟩ =
      .ok ⟨some ⟨ws.sent ++ [Json.obj [("m", Json.str "Message"),
                                       ("c", Json.obj [("content", Json.str content)])]],
                ws.closeRequested⟩⟩
    ∧ Client.sendPrivateMessage receiver msg ⟨some ws⟩ =
      .ok ⟨some ⟨ws.sent ++ [Json.obj [("m", Json.str "PrivateMessage"),
                                       ("c", Json.obj [("message", Json.str msg),
                                                       ("receiver", Json.str receiver)])]],
                ws.closeRequested⟩⟩
    ∧ Client.requestJWT ⟨some ws⟩ =
      .ok ⟨some ⟨ws.sent ++ [Json.obj [("m", Json.str "RequestJWT")]], ws.closeRequested⟩⟩
    ∧ Client.requestUserCount ⟨some ws⟩ =
      .ok ⟨some ⟨ws.sent ++ [Json.obj [("m", Json.str "RequestUserCount")]], ws.closeRequested⟩⟩ :=
  ⟨rfl, rfl, rfl, rfl, rfl, rfl⟩

/-- C7: for each recognized inbound kind on a well-formed frame, the typed
event's field values are exactly the wire field values under the documented
name mapping: Message and PrivateMessage map author_info to author and
content to content, UserCount maps connections to connections and logged_in
to loggedIn, and Error, NewJWT, Success deliver the wire payload
unchanged. -/
theorem inbound_field_mapping (a co conn li e : Json) :
    (Client.handleMessage (some (Json.obj [("m", Json.str "Message"),
        ("c", Json.obj [("author_info", a), ("content", co)])]))).1 =
      [.rawPacket (some (Json.obj [("m", Json.str "Message"),
          ("c", Json.obj [("author_info", a), ("content", co)])])),
       .packet (Json.obj [("m", Json.str "Message"),
          ("c", Json.obj [("author_info", a), ("content", co)])]),
       .message (some a) (some co)]
    ∧ (Client.handleMessage (some (Json.obj [("m", Json.str "PrivateMessage"),
        ("c", Json.obj [("author_info", a), ("content", co)])]))).1 =
      [.rawPacket (some (Json.obj [("m", Json.str "PrivateMessage"),
          ("c", Json.obj [("author_info", a), ("content", co)])])),
       .packet (Json.obj [("m", Json.str "PrivateMessage"),
          ("c", Json.obj [("author_info", a), ("content", co)])]),
       .privateMessage (some a) (some co)]
    ∧ (Client.handleMessage (some (Json.obj [("m", Json.str "UserCount"),
        ("c", Json.obj [("connections", conn), ("logged_in", li)])]))).1 =
      [.rawPacket (some (Json.obj [("m", Json.str "UserCount"),
          ("c", Json.obj [("connections", conn), ("logged_in", li)])])),
       .packet (Json.obj [("m", Json.str "UserCount"),
          ("c", Json.obj [("connections", conn), ("logged_in", li)])]),
       .userCount (some conn) (some li)]
    ∧ (Client.handleMessage (some (Json.obj [("m", Json.str "Error"), ("c", e)]))).1 =
      [.rawPacket (some (Json.obj [("m", Json.str "Error"), ("c", e)])),
       .packet (Json.obj [("m", Json.str "Error"), ("c", e)]),
       .error (some e)]
    ∧ (Client.handleMessage (some (Json.obj [("m", Json.str "NewJWT"), ("c", e)]))).1 =
      [.rawPacket (some (Json.obj [("m", Json.str "NewJWT"), ("c", e)])),
       .packet (Json.obj [("m", Json.str "NewJWT"), ("c", e)]),
       .newJWT (some e)]
    ∧ (Client.handleMessage (some (Json.obj [("m", Json.str "Success"), ("c", e)]))).1 =
      [.rawPacket (some (Json.obj [("m", Json.str "Success"), ("c", e)])),
       .packet (Json.obj [("m", Json.str "Success"), ("c", e)]),
       .success (some e)] :=
  ⟨rfl, rfl, rfl, rfl, rfl, rfl⟩

/-- C8 counterexample: the text encoding the empty object is valid JSON that
lacks a string m field, yet decode succeeds on it (the cast performs no
check), refuting the claimed iff; and on a frame whose c field is absent the
envelope's payload is absent (undefined), not an empty mapping. -/
theorem decode_missing_m_and_absent_c :
    decode (some (Json.obj [])) = .ok (Json.obj [])
    ∧ (Json.obj []).get "m" = none
    ∧ decode (some (Json.obj [("m", Json.str "NewJWT")])) =
        .ok (Json.obj [("m", Json.str "NewJWT")])
    ∧ (Json.obj [("m", Json.str "NewJWT")]).get "c" = none
    ∧ (Json.obj [("m", Json.str "NewJWT")]).get "c" ≠ some (Json.obj []) :=
  ⟨rfl, rfl, rfl, rfl, by simp [Json.get]⟩

/-- C8 amended: decode fails with MalformedEnvelope exactly when the text is
not valid JSON (the parse fails); a successful parse is passed through
unchanged, with no check of the m field and no defaulting of an absent c. -/
theorem decode_fails_iff_parse_fails (pr : Option Json) :
    (decode pr = .error .malformedEnvelope ↔ pr = none)
    ∧ (∀ v, decode pr = .ok v ↔ pr = some v) := by
  cases pr <;> simp [decode]

/-- C8 witness: the amended theorem applied at the failed parse. -/
theorem decode_fails_iff_parse_fails_witness :
    decode none = .error .malformedEnvelope :=
  (decode_fails_iff_parse_fails none).1.mpr rfl

/-- C9 (disconnect modelled from the spec): when a handle is bound,
disconnect requests transport close, clears the handle and leaves the
session Disconnected; when none is bound it is a no-op; a second disconnect
right after a first is always a no-op that emits nothing, and across the two
calls the session's own bookkeeping emits at most one close event. -/
theorem disconnect_idempotent (st : ClientState) :
    (∀ ws, st.webSocket = some ws →
        Client.disconnect st = (⟨none⟩, [], some ⟨ws.sent, true⟩))
    ∧ (st.webSocket = none → Client.disconnect st = (st, [], none))
    ∧ Client.disconnect (Client.disconnect st).1 = ((Client.disconnect st).1, [], none)
    ∧ ((Client.disconnect st).2.1 ++
        (Client.disconnect (Client.disconnect st).1).2.1).countP Event.isClose ≤ 1 := by
  obtain ⟨ws⟩ := st
  cases ws <;> simp [Client.disconnect]

/-- C9 witness: the theorem applied at a bound session. -/
theorem disconnect_idempotent_witness :
    Client.disconnect ⟨some ⟨[], false⟩⟩ = (⟨none⟩, [], some ⟨[], true⟩) :=
  (disconnect_idempotent ⟨some ⟨[], false⟩⟩).1 ⟨[], false⟩ rfl

/-- C10: round-trip.  Every outbound operation sends stringifyPacket of its
kind and payload; serializing any kind and payload and decoding the
resulting text succeeds and reproduces the original kind under m and the
original payload (including an absent payload staying absent) under c. -/
theorem encode_decode_roundtrip (k : String) (d : Option Json) (tok : String) (am : Bool)
    (ws : WebSocketHandle) :
    decode (some (stringifyPacket k d)) = .ok (stringifyPacket k d)
    ∧ (stringifyPacket k d).get "m" = some (Json.str k)
    ∧ (stringifyPacket k d).get "c" = d
    ∧ Client.loginJWT tok am ⟨some ws⟩ =
        .ok ⟨some ⟨ws.sent ++ [stringifyPacket "LoginJWT"
              (some (Json.obj [("token", Json.str tok), ("allow_messages", Json.bool am)]))],
                  ws.closeRequested⟩⟩ := by
  refine ⟨rfl, ?_, ?_, rfl⟩ <;> cases d <;> rfl

end Axochat
